import Mathlib

/-!
# Python interface to record targets (`gdb/python/py-record.c`)

A shallow embedding of the `gdb.Record` facade, the `gdb.RecordGap` object and the
three module functions `gdb.start_recording`, `gdb.current_recording` and
`gdb.stop_recording`.

* A `PyObject *` result is an `Option PyObject`: `none` is `NULL`, returned with the
  Python error indicator set.
* The interpreter and debugger state is passed explicitly as a `World`.
* Functions whose bodies live in other files (`py-record-btrace.c`,
  `py-record-full.c`, `record.c`, `target.c`, the Python glue) are parameters,
  collected in `Backends` and `Externals`.
-/

namespace PyRecord

/-! ## Data model -/

/-- Modelled from the spec: `enum record_method`, declared in `record.h`.  The spec's
`FullReplay` is `RECORD_METHOD_FULL` and `BranchTrace` is `RECORD_METHOD_BTRACE`, the two
constants `py-record.c` compares against; `RECORD_METHOD_NONE` is the remaining value
(no or unknown method), the fall-through case of every dispatch. -/
inductive record_method where
  | RECORD_METHOD_NONE
  | RECORD_METHOD_FULL
  | RECORD_METHOD_BTRACE
  deriving DecidableEq, Repr

/-- Modelled from the spec: `ptid_t`, the "owning thread identifier" of a session,
declared in `ptid.h`. -/
structure ptid_t where
  pid : Int
  lwp : Int
  tid : Int
  deriving DecidableEq, Repr

/-- Python Record object (`py-record.h`). -/
structure recpy_record_object where
  /-- The ptid this object refers to. -/
  ptid : ptid_t
  /-- The current recording method. -/
  method : record_method
  deriving DecidableEq, Repr

/-- Python RecordGap object. -/
structure recpy_gap_object where
  /-- Reason code (`int`). -/
  reason_code : Int
  /-- Reason message (`const char *`). -/
  reason_string : String
  /-- Element number (`Py_ssize_t`). -/
  number : Int
  deriving DecidableEq, Repr

/-- Modelled from the spec: a `HistoryEntry`, the tagged variant over instructions,
function calls and gaps that the history queries of the backends produce. -/
inductive HistoryEntry where
  | Instruction (address : Int)
  | FunctionCall (level : Int)
  | Gap (gap : recpy_gap_object)
  deriving DecidableEq, Repr

/-- Python values that cross the interface of `py-record.c`. -/
inductive PyObject where
  | Py_None
  | PyInt (value : Int)
  | PyString (value : String)
  | Record (obj : recpy_record_object)
  | RecordGap (obj : recpy_gap_object)
  | Position (index : Int)
  | History (entries : List HistoryEntry)
  deriving DecidableEq, Repr

/-- Modelled from the spec: the errors of the spec's taxonomy that are raised outside
`py-record.c` (by `record_start`, `record_stop` and the backends). -/
inductive SpecError where
  | OutOfRange
  | AlreadyRecording
  | NotRecording
  | InvalidSession
  | UnsupportedMethod
  | TargetUnavailable
  deriving DecidableEq, Repr

/-- Exception classes that can sit in the Python error indicator.
`PyExc_NotImplementedError` is the only class `py-record.c` raises itself (the spec's
`UnsupportedOperation`); `PyExc_MemoryError` is set by `PyObject_New`,
`PyExc_TypeError` by argument parsing, `gdb_error` by converted GDB exceptions and
by the backends. -/
inductive PyExc where
  | PyExc_NotImplementedError
  | PyExc_MemoryError
  | PyExc_TypeError
  | gdb_error (kind : SpecError)
  deriving DecidableEq, Repr

/-- The Python error indicator: exception class and message. -/
structure PyErr where
  exc : PyExc
  msg : String
  deriving DecidableEq, Repr

/-- Modelled from the spec: `struct gdb_exception` (`common-exceptions.h`), what
`record_start` and `record_stop` throw and `CATCH` receives. -/
structure gdb_exception where
  error : SpecError
  message : String
  deriving DecidableEq, Repr

/-- The state a call runs in: the debugger state `gdb` (targets, threads, traces), the
Python error indicator, and the number of objects the Python allocator can still
hand out. -/
structure World (G : Type) where
  gdb : G
  err : Option PyErr
  heap : Nat
  deriving DecidableEq, Repr

/-- Result of a function returning `PyObject *`: the pointer (`none` is `NULL`) and
the state it leaves. -/
abbrev PyRet (G : Type) := Option PyObject × World G

/-- Result of a function that dereferences a pointer it did not check: it either
returns, or writes through `NULL`. -/
inductive Outcome (G : Type) where
  | returned (value : Option PyObject) (w : World G)
  | null_dereference
  deriving DecidableEq, Repr

/-- The `void *closure` argument of a getter. -/
abbrev Closure := Nat

/-- The backend functions declared in `py-record-full.h` and `py-record-btrace.h`;
their bodies are not part of `py-record.c`. -/
structure Backends (G : Type) where
  recpy_full_method : recpy_record_object → Closure → World G → PyRet G
  recpy_full_format : recpy_record_object → Closure → World G → PyRet G
  recpy_bt_method : recpy_record_object → Closure → World G → PyRet G
  recpy_bt_format : recpy_record_object → Closure → World G → PyRet G
  recpy_bt_goto : recpy_record_object → List PyObject → World G → PyRet G
  recpy_bt_replay_position : recpy_record_object → Closure → World G → PyRet G
  recpy_bt_instruction_history : recpy_record_object → Closure → World G → PyRet G
  recpy_bt_function_call_history : recpy_record_object → Closure → World G → PyRet G
  recpy_bt_begin : recpy_record_object → Closure → World G → PyRet G
  recpy_bt_end : recpy_record_object → Closure → World G → PyRet G

/-- The other functions and globals `py-record.c` uses from `target.h`, `record.h`,
`inferior.h` and `python-internal.h`.  `find_record_target` is reduced to whether
the pointer it returns is non-`NULL`. -/
structure Externals (G : Type) where
  find_record_target : G → Bool
  inferior_ptid : G → ptid_t
  target_record_method : ptid_t → G → record_method
  record_start : Option String → Option String → Int → World G →
    Except gdb_exception Unit × World G
  record_stop : Int → World G → Except gdb_exception Unit × World G
  gdbpy_convert_exception : gdb_exception → World G → World G
  PyArg_ParseTuple_ss : List PyObject → World G →
    Option (Option String × Option String) × World G

/-! ## Python C API -/

/-- `PyErr_Format (exc, msg)`: sets the error indicator and returns `NULL`.  The
message lookup `_()` is the identity (untranslated locale). -/
def PyErr_Format {G : Type} (exc : PyExc) (msg : String) (w : World G) : PyRet G :=
  (none, { w with err := some ⟨exc, msg⟩ })

/-- `PyObject_New`: whether a fresh object could be allocated.  On failure the
error indicator is set to `MemoryError` and the caller gets `NULL`. -/
def PyObject_New {G : Type} (w : World G) : Bool × World G :=
  if w.heap = 0 then
    (false, { w with err := some ⟨PyExc.PyExc_MemoryError, ""⟩ })
  else
    (true, { w with heap := w.heap - 1 })

/-- `PyInt_FromSsize_t`: the Python integer of a `Py_ssize_t`.  The value
constructors of the C API are taken to return their object. -/
def PyInt_FromSsize_t (v : Int) : PyObject := PyObject.PyInt v

/-- `PyInt_FromLong`: the Python integer of a `long`; an `int` argument is widened
without change of value. -/
def PyInt_FromLong (v : Int) : PyObject := PyObject.PyInt v

/-- `PyString_FromString`: the Python string with the characters of a C string. -/
def PyString_FromString (s : String) : PyObject := PyObject.PyString s

/-! ## The `gdb.Record` facade -/

/-- Implementation of record.method. -/
def recpy_method {G : Type} (B : Backends G) (self : recpy_record_object)
    (closure : Closure) (w : World G) : PyRet G :=
  if self.method = record_method.RECORD_METHOD_FULL then
    B.recpy_full_method self closure w
  else if self.method = record_method.RECORD_METHOD_BTRACE then
    B.recpy_bt_method self closure w
  else
    PyErr_Format PyExc.PyExc_NotImplementedError "Not implemented." w

/-- Implementation of record.format. -/
def recpy_format {G : Type} (B : Backends G) (self : recpy_record_object)
    (closure : Closure) (w : World G) : PyRet G :=
  if self.method = record_method.RECORD_METHOD_FULL then
    B.recpy_full_format self closure w
  else if self.method = record_method.RECORD_METHOD_BTRACE then
    B.recpy_bt_format self closure w
  else
    PyErr_Format PyExc.PyExc_NotImplementedError "Not implemented." w

/-- Implementation of record.goto (instruction) -> None. -/
def recpy_goto {G : Type} (B : Backends G) (self : recpy_record_object)
    (value : List PyObject) (w : World G) : PyRet G :=
  if self.method = record_method.RECORD_METHOD_BTRACE then
    B.recpy_bt_goto self value w
  else
    PyErr_Format PyExc.PyExc_NotImplementedError "Not implemented." w

/-- Implementation of record.replay_position [instruction]. -/
def recpy_replay_position {G : Type} (B : Backends G) (self : recpy_record_object)
    (closure : Closure) (w : World G) : PyRet G :=
  if self.method = record_method.RECORD_METHOD_BTRACE then
    B.recpy_bt_replay_position self closure w
  else
    PyErr_Format PyExc.PyExc_NotImplementedError "Not implemented." w

/-- Implementation of record.instruction_history [list]. -/
def recpy_instruction_history {G : Type} (B : Backends G) (self : recpy_record_object)
    (closure : Closure) (w : World G) : PyRet G :=
  if self.method = record_method.RECORD_METHOD_BTRACE then
    B.recpy_bt_instruction_history self closure w
  else
    PyErr_Format PyExc.PyExc_NotImplementedError "Not implemented." w

/-- Implementation of record.function_call_history [list]. -/
def recpy_function_call_history {G : Type} (B : Backends G) (self : recpy_record_object)
    (closure : Closure) (w : World G) : PyRet G :=
  if self.method = record_method.RECORD_METHOD_BTRACE then
    B.recpy_bt_function_call_history self closure w
  else
    PyErr_Format PyExc.PyExc_NotImplementedError "Not implemented." w

/-- Implementation of record.begin [instruction]. -/
def recpy_begin {G : Type} (B : Backends G) (self : recpy_record_object)
    (closure : Closure) (w : World G) : PyRet G :=
  if self.method = record_method.RECORD_METHOD_BTRACE then
    B.recpy_bt_begin self closure w
  else
    PyErr_Format PyExc.PyExc_NotImplementedError "Not implemented." w

/-- Implementation of record.end [instruction]. -/
def recpy_end {G : Type} (B : Backends G) (self : recpy_record_object)
    (closure : Closure) (w : World G) : PyRet G :=
  if self.method = record_method.RECORD_METHOD_BTRACE then
    B.recpy_bt_end self closure w
  else
    PyErr_Format PyExc.PyExc_NotImplementedError "Not implemented." w

/-! ## The `gdb.RecordGap` object -/

/-- Create a new gdb.RecordGap object. -/
def recpy_gap_new {G : Type} (reason_code : Int) (reason_string : String) (number : Int)
    (w : World G) : PyRet G :=
  match PyObject_New w with
  | (false, w1) => (none, w1)
  | (true, w1) =>
    (some (PyObject.RecordGap
      { reason_code := reason_code, reason_string := reason_string, number := number }), w1)

/-- Implementation of RecordGap.number [int]. -/
def recpy_gap_number (self : recpy_gap_object) (_closure : Closure) : PyObject :=
  PyInt_FromSsize_t self.number

/-- Implementation of RecordGap.error_code [int]. -/
def recpy_gap_reason_code (self : recpy_gap_object) (_closure : Closure) : PyObject :=
  PyInt_FromLong self.reason_code

/-- Implementation of RecordGap.error_string [str]. -/
def recpy_gap_reason_string (self : recpy_gap_object) (_closure : Closure) : PyObject :=
  PyString_FromString self.reason_string

/-! ## Module functions -/

/-- Implementation of gdb.current_recording (self) -> gdb.Record.  The result of
`PyObject_New` is written through without a `NULL` test. -/
def gdbpy_current_recording {G : Type} (X : Externals G) (_args : List PyObject)
    (w : World G) : Outcome G :=
  if X.find_record_target w.gdb = false then
    Outcome.returned (some PyObject.Py_None) w
  else
    match PyObject_New w with
    | (false, _) => Outcome.null_dereference
    | (true, w1) =>
      Outcome.returned
        (some (PyObject.Record
          { ptid := X.inferior_ptid w1.gdb,
            method := X.target_record_method (X.inferior_ptid w1.gdb) w1.gdb })) w1

/-- Implementation of gdb.start_recording (method) -> gdb.Record. -/
def gdbpy_start_recording {G : Type} (X : Externals G) (args : List PyObject)
    (w : World G) : Outcome G :=
  match X.PyArg_ParseTuple_ss args w with
  | (none, w1) => Outcome.returned none w1
  | (some (method, format), w1) =>
    match X.record_start method format 0 w1 with
    | (Except.ok _, w2) => gdbpy_current_recording X args w2
    | (Except.error except, w2) =>
      Outcome.returned none (X.gdbpy_convert_exception except w2)

/-- Implementation of gdb.stop_recording (self) -> None. -/
def gdbpy_stop_recording {G : Type} (X : Externals G) (_args : List PyObject)
    (w : World G) : PyRet G :=
  match X.record_stop 0 w with
  | (Except.ok _, w1) => (some PyObject.Py_None, w1)
  | (Except.error except, w1) => (none, X.gdbpy_convert_exception except w1)

/-! ## The member tables -/

/-- The names bound by `recpy_record_methods` and `recpy_record_getset`. -/
inductive RecordMember where
  | goto
  | method
  | format
  | replay_position
  | instruction_history
  | function_call_history
  | begin
  | end_
  deriving DecidableEq, Repr

/-- Lookup in `recpy_record_methods` and `recpy_record_getset`: the function each
member name is bound to, called with `value` (method) or `closure` (getter). -/
def recpy_record_member {G : Type} (B : Backends G) (m : RecordMember)
    (self : recpy_record_object) (value : List PyObject) (closure : Closure)
    (w : World G) : PyRet G :=
  match m with
  | RecordMember.goto => recpy_goto B self value w
  | RecordMember.method => recpy_method B self closure w
  | RecordMember.format => recpy_format B self closure w
  | RecordMember.replay_position => recpy_replay_position B self closure w
  | RecordMember.instruction_history => recpy_instruction_history B self closure w
  | RecordMember.function_call_history => recpy_function_call_history B self closure w
  | RecordMember.begin => recpy_begin B self closure w
  | RecordMember.end_ => recpy_end B self closure w

/-! ## The collaborators, modelled from the spec

`record.c`, `target.c`, `py-record-btrace.c`, `py-record-full.c` and the Python glue
are not part of `py-record.c`.  The definitions below follow the spec's Session
Registry (§4.5), Replay Cursor (§4.2) and error taxonomy (§7); they give the
parameters `Backends` and `Externals` one concrete value. -/

namespace SpecModel

/-- Modelled from the spec: one active recording (`RecordingSession` with its Replay
Cursor): method, format label, the bounds `begin` and `end` (`end` is one past the
last recorded instruction), the cursor, and the recorded histories. -/
structure Recording where
  method : record_method
  format : String
  begin_pos : Int
  end_pos : Int
  position : Int
  instructions : List HistoryEntry
  function_calls : List HistoryEntry
  deriving DecidableEq, Repr

/-- Modelled from the spec: the Session Registry, "the single active recording per
target thread".  `inferior_ptid` is the currently selected thread; `supported` is
what the current target accepts for a requested (method, format) pair, an absent
one selecting the target's default. -/
structure Registry where
  inferior_ptid : ptid_t
  active : List (ptid_t × Recording)
  supported : List ((Option String × Option String) × (record_method × String))
  deriving DecidableEq, Repr

/-- Modelled from the spec: the active recording of a thread, if any. -/
def Registry.recording (r : Registry) (ptid : ptid_t) : Option Recording :=
  (r.active.find? (fun e => decide (e.1 = ptid))).map Prod.snd

/-- Modelled from the spec: replace the recording of a thread. -/
def Registry.store (r : Registry) (ptid : ptid_t) (sess : Recording) : Registry :=
  { r with active := (ptid, sess) :: r.active.filter (fun e => !decide (e.1 = ptid)) }

/-- Modelled from the spec: discard the recording of a thread. -/
def Registry.discard (r : Registry) (ptid : ptid_t) : Registry :=
  { r with active := r.active.filter (fun e => !decide (e.1 = ptid)) }

/-- Modelled from the spec: `find_record_target` (`record.c`), non-`NULL` when a
recording is active for the current thread. -/
def find_record_target (r : Registry) : Bool :=
  (r.recording r.inferior_ptid).isSome

/-- Modelled from the spec: `target_record_method` (`target.c`), the method of the
thread's recording, `RECORD_METHOD_NONE` when it has none. -/
def target_record_method (ptid : ptid_t) (r : Registry) : record_method :=
  match r.recording ptid with
  | some sess => sess.method
  | none => record_method.RECORD_METHOD_NONE

/-- Modelled from the spec: the recording a successful `start_recording` creates,
empty, with `begin = end`. -/
def fresh (method : record_method) (format : String) : Recording :=
  { method := method, format := format, begin_pos := 0, end_pos := 0, position := 0,
    instructions := [], function_calls := [] }

/-- Modelled from the spec: `record_start` (`record.c`).  "Fails if a recording is
already active for the target thread (`AlreadyRecording`), or if the requested
method/format is not supported by the current target (`UnsupportedMethod`).  On
success, creates ... the new `RecordingSession`." -/
def record_start (method format : Option String) (_from_tty : Int) (w : World Registry) :
    Except gdb_exception Unit × World Registry :=
  match w.gdb.recording w.gdb.inferior_ptid with
  | some _ => (Except.error ⟨SpecError.AlreadyRecording, "already recording"⟩, w)
  | none =>
    match w.gdb.supported.lookup (method, format) with
    | none => (Except.error ⟨SpecError.UnsupportedMethod, "unsupported method"⟩, w)
    | some (m, f) =>
      (Except.ok (), { w with gdb := w.gdb.store w.gdb.inferior_ptid (fresh m f) })

/-- Modelled from the spec: `record_stop` (`record.c`).  "Fails with `NotRecording`
if no session is active; otherwise detaches and discards the session." -/
def record_stop (_from_tty : Int) (w : World Registry) :
    Except gdb_exception Unit × World Registry :=
  match w.gdb.recording w.gdb.inferior_ptid with
  | none => (Except.error ⟨SpecError.NotRecording, "not recording"⟩, w)
  | some _ => (Except.ok (), { w with gdb := w.gdb.discard w.gdb.inferior_ptid })

/-- Modelled from the spec: `gdbpy_convert_exception` (`py-utils.c`), "exception
translation": the Python error indicator receives the GDB exception's kind and
message. -/
def gdbpy_convert_exception (e : gdb_exception) (w : World Registry) : World Registry :=
  { w with err := some ⟨PyExc.gdb_error e.error, e.message⟩ }

/-- Modelled from the spec: `PyArg_ParseTuple (args, "|ss", &method, &format)`,
`start_recording(method: string | absent, format: string | absent)`. -/
def PyArg_ParseTuple_ss (args : List PyObject) (w : World Registry) :
    Option (Option String × Option String) × World Registry :=
  match args with
  | [] => (some (none, none), w)
  | [PyObject.PyString m] => (some (some m, none), w)
  | [PyObject.PyString m, PyObject.PyString f] => (some (some m, some f), w)
  | _ => (none, { w with err := some ⟨PyExc.PyExc_TypeError, "bad argument"⟩ })

/-- Modelled from the spec: a read-only query of a backend on a session handle.  A
handle whose recording is gone is stale: the query "must fail with
`InvalidSession`, not silently recreate state". -/
def query (f : Recording → PyObject) (self : recpy_record_object) (_closure : Closure)
    (w : World Registry) : PyRet Registry :=
  match w.gdb.recording self.ptid with
  | none => PyErr_Format (PyExc.gdb_error SpecError.InvalidSession) "invalid session" w
  | some sess => (some (f sess), w)

/-- Modelled from the spec: `Session.method -> string`. -/
def method_name : record_method → String
  | record_method.RECORD_METHOD_NONE => "none"
  | record_method.RECORD_METHOD_FULL => "full"
  | record_method.RECORD_METHOD_BTRACE => "btrace"

/-- Modelled from the spec: `recpy_bt_goto` (`py-record-btrace.c`).  "`goto(target)`
requires `begin ≤ target ≤ end`; values outside this range fail with `OutOfRange`.
On success the cursor is set atomically to `target`." -/
def recpy_bt_goto (self : recpy_record_object) (value : List PyObject)
    (w : World Registry) : PyRet Registry :=
  match w.gdb.recording self.ptid with
  | none => PyErr_Format (PyExc.gdb_error SpecError.InvalidSession) "invalid session" w
  | some sess =>
    match value with
    | [PyObject.Position target] =>
      if sess.begin_pos ≤ target ∧ target ≤ sess.end_pos then
        (some PyObject.Py_None,
          { w with gdb := w.gdb.store self.ptid { sess with position := target } })
      else
        PyErr_Format (PyExc.gdb_error SpecError.OutOfRange) "out of range" w
    | _ => PyErr_Format PyExc.PyExc_TypeError "bad argument" w

/-- Modelled from the spec: the backends of `py-record-full.c` and
`py-record-btrace.c`, each query answering from the thread's active recording. -/
def backends : Backends Registry where
  recpy_full_method := query (fun sess => PyObject.PyString (method_name sess.method))
  recpy_full_format := query (fun sess => PyObject.PyString sess.format)
  recpy_bt_method := query (fun sess => PyObject.PyString (method_name sess.method))
  recpy_bt_format := query (fun sess => PyObject.PyString sess.format)
  recpy_bt_goto := recpy_bt_goto
  recpy_bt_replay_position := query (fun sess => PyObject.Position sess.position)
  recpy_bt_instruction_history := query (fun sess => PyObject.History sess.instructions)
  recpy_bt_function_call_history := query (fun sess => PyObject.History sess.function_calls)
  recpy_bt_begin := query (fun sess => PyObject.Position sess.begin_pos)
  recpy_bt_end := query (fun sess => PyObject.Position sess.end_pos)

/-- Modelled from the spec: the registry side of the interface (`record.c`,
`target.c`, `inferior.h`, Python glue). -/
def externals : Externals Registry where
  find_record_target := find_record_target
  inferior_ptid := fun r => r.inferior_ptid
  target_record_method := target_record_method
  record_start := record_start
  record_stop := record_stop
  gdbpy_convert_exception := gdbpy_convert_exception
  PyArg_ParseTuple_ss := PyArg_ParseTuple_ss

/-- Thread 1 of process 1. -/
def thread1 : ptid_t := { pid := 1, lwp := 1, tid := 1 }

/-- A target that accepts the methods "full" and "btrace", the default being "full". -/
def idle : Registry :=
  { inferior_ptid := thread1,
    active := [],
    supported :=
      [ ((none, none), (record_method.RECORD_METHOD_FULL, "full")),
        ((some "full", none), (record_method.RECORD_METHOD_FULL, "full")),
        ((some "btrace", none), (record_method.RECORD_METHOD_BTRACE, "bts")),
        ((some "btrace", some "bts"), (record_method.RECORD_METHOD_BTRACE, "bts")),
        ((some "btrace", some "pt"), (record_method.RECORD_METHOD_BTRACE, "pt")) ] }

/-- A state with nothing recording, no error pending and room for four objects. -/
def world0 : World Registry := { gdb := idle, err := none, heap := 4 }

/-- A branch trace of ten instructions on thread 1, replaying at position 5. -/
def tracing : Registry :=
  { idle with
    active :=
      [ (thread1,
          { method := record_method.RECORD_METHOD_BTRACE, format := "bts",
            begin_pos := 0, end_pos := 10, position := 5,
            instructions := [], function_calls := [] }) ] }

/-- The state `gdb.start_recording ("btrace")` leaves when called in `world0`. -/
def btrace_started : World Registry :=
  { gdb := { idle with active := [(thread1, fresh record_method.RECORD_METHOD_BTRACE "bts")] },
    err := none, heap := 3 }

/-- The state `gdb.start_recording ("full")` leaves when called in `world0`. -/
def full_started : World Registry :=
  { gdb := { idle with active := [(thread1, fresh record_method.RECORD_METHOD_FULL "full")] },
    err := none, heap := 3 }

/-- The state `gdb.stop_recording ()` leaves when called in `full_started`. -/
def full_stopped : World Registry := { gdb := idle, err := none, heap := 3 }

/-- A state that replays the ten-instruction trace of `tracing`. -/
def replaying : World Registry := { gdb := tracing, err := none, heap := 4 }

end SpecModel

/-! ## The capability table of the spec -/

/-- Capabilities by method, as the table of the spec's §4.1 gives them: method and
format for both methods, everything else for `BranchTrace` only. -/
def declares : record_method → RecordMember → Bool
  | record_method.RECORD_METHOD_FULL, RecordMember.method => true
  | record_method.RECORD_METHOD_FULL, RecordMember.format => true
  | record_method.RECORD_METHOD_BTRACE, _ => true
  | _, _ => false

/-- Dispatch as the spec's §4.1 describes it: a pair the table marks "yes" goes to
the backend of the method, any other pair is the unsupported-operation failure. -/
def table_dispatch {G : Type} (B : Backends G) (m : RecordMember)
    (self : recpy_record_object) (value : List PyObject) (closure : Closure)
    (w : World G) : PyRet G :=
  match self.method, m with
  | record_method.RECORD_METHOD_FULL, RecordMember.method =>
    B.recpy_full_method self closure w
  | record_method.RECORD_METHOD_FULL, RecordMember.format =>
    B.recpy_full_format self closure w
  | record_method.RECORD_METHOD_BTRACE, RecordMember.goto => B.recpy_bt_goto self value w
  | record_method.RECORD_METHOD_BTRACE, RecordMember.method =>
    B.recpy_bt_method self closure w
  | record_method.RECORD_METHOD_BTRACE, RecordMember.format =>
    B.recpy_bt_format self closure w
  | record_method.RECORD_METHOD_BTRACE, RecordMember.replay_position =>
    B.recpy_bt_replay_position self closure w
  | record_method.RECORD_METHOD_BTRACE, RecordMember.instruction_history =>
    B.recpy_bt_instruction_history self closure w
  | record_method.RECORD_METHOD_BTRACE, RecordMember.function_call_history =>
    B.recpy_bt_function_call_history self closure w
  | record_method.RECORD_METHOD_BTRACE, RecordMember.begin => B.recpy_bt_begin self closure w
  | record_method.RECORD_METHOD_BTRACE, RecordMember.end_ => B.recpy_bt_end self closure w
  | _, _ => PyErr_Format PyExc.PyExc_NotImplementedError "Not implemented." w

/-- The failure "fails with `InvalidSession`": `NULL` is returned and the error
indicator holds that error. -/
def fails_with {G : Type} (kind : SpecError) (r : PyRet G) : Prop :=
  r.1 = none ∧ ∃ msg, r.2.err = some ⟨PyExc.gdb_error kind, msg⟩

/-! ## The facade: dispatch on the method tag -/

/-- When a record target is found and the allocator can provide an object,
`gdbpy_current_recording` returns a session for the selected thread with the
target's method for that thread. -/
theorem gdbpy_current_recording_allocated {G : Type} (X : Externals G)
    (args : List PyObject) (w : World G) (htarget : X.find_record_target w.gdb = true)
    (hheap : w.heap ≠ 0) :
    gdbpy_current_recording X args w =
      Outcome.returned
        (some (PyObject.Record
          { ptid := X.inferior_ptid w.gdb,
            method := X.target_record_method (X.inferior_ptid w.gdb) w.gdb }))
        { w with heap := w.heap - 1 } := by
  simp [gdbpy_current_recording, PyObject_New, htarget, hheap]

/-- The facade is the table: every member of `gdb.Record` behaves as
`table_dispatch` describes. -/
theorem recpy_record_member_eq_table {G : Type} (B : Backends G) (m : RecordMember)
    (self : recpy_record_object) (value : List PyObject) (closure : Closure)
    (w : World G) :
    recpy_record_member B m self value closure w =
      table_dispatch B m self value closure w := by
  obtain ⟨ptid, method⟩ := self
  cases method <;> cases m <;>
    simp [recpy_record_member, table_dispatch, recpy_goto, recpy_method, recpy_format,
      recpy_replay_position, recpy_instruction_history, recpy_function_call_history,
      recpy_begin, recpy_end]

/-- A session can only come out of `gdbpy_current_recording` when a record target
was found, and the debugger state is the one it was called in. -/
theorem gdbpy_current_recording_record {G : Type} (X : Externals G)
    (args : List PyObject) (w w1 : World G) (session : recpy_record_object)
    (h : gdbpy_current_recording X args w =
      Outcome.returned (some (PyObject.Record session)) w1) :
    X.find_record_target w.gdb = true ∧ w1.gdb = w.gdb
    ∧ session = { ptid := X.inferior_ptid w.gdb,
                  method := X.target_record_method (X.inferior_ptid w.gdb) w.gdb } := by
  unfold gdbpy_current_recording at h
  by_cases htarget : X.find_record_target w.gdb = false
  · simp [htarget] at h
  · by_cases hheap : w.heap = 0
    · simp [htarget, PyObject_New, hheap] at h
    · have htrue : X.find_record_target w.gdb = true := by simpa using htarget
      simp [htrue, PyObject_New, hheap] at h
      refine ⟨htrue, ?_, h.1.symm⟩
      rw [← h.2]

namespace SpecModel

/-- The modelled argument parser either succeeds and leaves the state alone, or
fails. -/
theorem PyArg_ParseTuple_ss_cases (args : List PyObject) (w : World Registry) :
    (∃ mf, PyArg_ParseTuple_ss args w = (some mf, w))
    ∨ ∃ w1, PyArg_ParseTuple_ss args w = (none, w1) := by
  unfold PyArg_ParseTuple_ss
  split
  · exact Or.inl ⟨_, rfl⟩
  · exact Or.inl ⟨_, rfl⟩
  · exact Or.inl ⟨_, rfl⟩
  · exact Or.inr ⟨_, rfl⟩

/-- While a recording is active for the selected thread, the modelled
`record_start` throws `AlreadyRecording` and changes nothing. -/
theorem record_start_active (method format : Option String) (w : World Registry)
    (h : find_record_target w.gdb = true) :
    record_start method format 0 w =
      (Except.error ⟨SpecError.AlreadyRecording, "already recording"⟩, w) := by
  unfold find_record_target at h
  unfold record_start
  cases hrec : w.gdb.recording w.gdb.inferior_ptid with
  | none => simp [hrec] at h
  | some sess => rfl

/-- A discarded recording is gone. -/
theorem recording_discard (r : Registry) (ptid : ptid_t) :
    (r.discard ptid).recording ptid = none := by
  simp [Registry.discard, Registry.recording, List.find?_eq_none]

/-- A successful modelled `record_stop` leaves the selected thread without a
recording. -/
theorem record_stop_ok (w w1 : World Registry)
    (h : record_stop 0 w = (Except.ok (), w1)) :
    w1.gdb.recording w.gdb.inferior_ptid = none := by
  unfold record_stop at h
  cases hrec : w.gdb.recording w.gdb.inferior_ptid with
  | none => simp [hrec] at h
  | some sess =>
    simp only [hrec, Prod.mk.injEq, true_and] at h
    rw [← h]
    exact recording_discard w.gdb w.gdb.inferior_ptid

/-- The modelled backends refuse a handle whose thread has no recording. -/
theorem backends_stale (m : RecordMember) (self : recpy_record_object)
    (value : List PyObject) (closure : Closure) (w : World Registry)
    (hgone : w.gdb.recording self.ptid = none) (hdeclared : declares self.method m = true) :
    fails_with SpecError.InvalidSession
      (recpy_record_member backends m self value closure w) := by
  obtain ⟨ptid, method⟩ := self
  cases method <;> cases m <;>
    simp_all [declares, fails_with, recpy_record_member, recpy_goto, recpy_method,
      recpy_format, recpy_replay_position, recpy_instruction_history,
      recpy_function_call_history, recpy_begin, recpy_end, PyErr_Format, backends, query,
      recpy_bt_goto]

/-- While no recording is active for the selected thread, the modelled
`record_stop` throws `NotRecording` and changes nothing. -/
theorem record_stop_idle (w : World Registry) (h : find_record_target w.gdb = false) :
    record_stop 0 w = (Except.error ⟨SpecError.NotRecording, "not recording"⟩, w) := by
  unfold find_record_target at h
  unfold record_stop
  cases hrec : w.gdb.recording w.gdb.inferior_ptid with
  | none => rfl
  | some sess => simp [hrec] at h

end SpecModel

/-- An undeclared pair is the fixed `NotImplementedError` failure. -/
theorem recpy_record_member_undeclared {G : Type} (B : Backends G) (m : RecordMember)
    (self : recpy_record_object) (value : List PyObject) (closure : Closure)
    (w : World G) (hundeclared : declares self.method m = false) :
    recpy_record_member B m self value closure w =
      (none, { w with err := some ⟨PyExc.PyExc_NotImplementedError, "Not implemented."⟩ }) := by
  obtain ⟨ptid, method⟩ := self
  cases method <;> cases m <;>
    simp_all [declares, recpy_record_member, recpy_goto, recpy_method, recpy_format,
      recpy_replay_position, recpy_instruction_history, recpy_function_call_history,
      recpy_begin, recpy_end, PyErr_Format]

/-- C1: on a session whose method is `RECORD_METHOD_FULL`, each of `goto`,
`replay_position`, `instruction_history`, `function_call_history`, `begin` and `end`
returns `NULL` with `NotImplementedError` ("Not implemented.") set and the rest of the
state untouched, for every thread id, closure and `goto` argument.  The result does
not depend on the backends `B`: none of them is called. -/
theorem full_session_replay_members_not_implemented {G : Type} (B : Backends G)
    (ptid : ptid_t) (value : List PyObject) (closure : Closure) (w : World G) :
    recpy_goto B ⟨ptid, record_method.RECORD_METHOD_FULL⟩ value w =
        (none, { w with err := some ⟨PyExc.PyExc_NotImplementedError, "Not implemented."⟩ })
    ∧ recpy_replay_position B ⟨ptid, record_method.RECORD_METHOD_FULL⟩ closure w =
        (none, { w with err := some ⟨PyExc.PyExc_NotImplementedError, "Not implemented."⟩ })
    ∧ recpy_instruction_history B ⟨ptid, record_method.RECORD_METHOD_FULL⟩ closure w =
        (none, { w with err := some ⟨PyExc.PyExc_NotImplementedError, "Not implemented."⟩ })
    ∧ recpy_function_call_history B ⟨ptid, record_method.RECORD_METHOD_FULL⟩ closure w =
        (none, { w with err := some ⟨PyExc.PyExc_NotImplementedError, "Not implemented."⟩ })
    ∧ recpy_begin B ⟨ptid, record_method.RECORD_METHOD_FULL⟩ closure w =
        (none, { w with err := some ⟨PyExc.PyExc_NotImplementedError, "Not implemented."⟩ })
    ∧ recpy_end B ⟨ptid, record_method.RECORD_METHOD_FULL⟩ closure w =
        (none, { w with err := some ⟨PyExc.PyExc_NotImplementedError, "Not implemented."⟩ }) := by
  simp [recpy_goto, recpy_replay_position, recpy_instruction_history,
    recpy_function_call_history, recpy_begin, recpy_end, PyErr_Format]

/-- C2: for every pair the capability table marks "yes", the facade returns exactly
what the matching backend function returns on the same session, argument and state:
`recpy_full_method` and `recpy_full_format` for a `RECORD_METHOD_FULL` session, the
eight `recpy_bt_*` functions for a `RECORD_METHOD_BTRACE` session. -/
theorem declared_members_pass_backend_result {G : Type} (B : Backends G)
    (ptid : ptid_t) (value : List PyObject) (closure : Closure) (w : World G) :
    recpy_method B ⟨ptid, record_method.RECORD_METHOD_FULL⟩ closure w =
        B.recpy_full_method ⟨ptid, record_method.RECORD_METHOD_FULL⟩ closure w
    ∧ recpy_format B ⟨ptid, record_method.RECORD_METHOD_FULL⟩ closure w =
        B.recpy_full_format ⟨ptid, record_method.RECORD_METHOD_FULL⟩ closure w
    ∧ recpy_method B ⟨ptid, record_method.RECORD_METHOD_BTRACE⟩ closure w =
        B.recpy_bt_method ⟨ptid, record_method.RECORD_METHOD_BTRACE⟩ closure w
    ∧ recpy_format B ⟨ptid, record_method.RECORD_METHOD_BTRACE⟩ closure w =
        B.recpy_bt_format ⟨ptid, record_method.RECORD_METHOD_BTRACE⟩ closure w
    ∧ recpy_replay_position B ⟨ptid, record_method.RECORD_METHOD_BTRACE⟩ closure w =
        B.recpy_bt_replay_position ⟨ptid, record_method.RECORD_METHOD_BTRACE⟩ closure w
    ∧ recpy_instruction_history B ⟨ptid, record_method.RECORD_METHOD_BTRACE⟩ closure w =
        B.recpy_bt_instruction_history ⟨ptid, record_method.RECORD_METHOD_BTRACE⟩ closure w
    ∧ recpy_function_call_history B ⟨ptid, record_method.RECORD_METHOD_BTRACE⟩ closure w =
        B.recpy_bt_function_call_history ⟨ptid, record_method.RECORD_METHOD_BTRACE⟩ closure w
    ∧ recpy_begin B ⟨ptid, record_method.RECORD_METHOD_BTRACE⟩ closure w =
        B.recpy_bt_begin ⟨ptid, record_method.RECORD_METHOD_BTRACE⟩ closure w
    ∧ recpy_end B ⟨ptid, record_method.RECORD_METHOD_BTRACE⟩ closure w =
        B.recpy_bt_end ⟨ptid, record_method.RECORD_METHOD_BTRACE⟩ closure w
    ∧ recpy_goto B ⟨ptid, record_method.RECORD_METHOD_BTRACE⟩ value w =
        B.recpy_bt_goto ⟨ptid, record_method.RECORD_METHOD_BTRACE⟩ value w := by
  simp [recpy_method, recpy_format, recpy_goto, recpy_replay_position,
    recpy_instruction_history, recpy_function_call_history, recpy_begin, recpy_end]

/-! ## The gap object -/

/-- C3: whenever `recpy_gap_new (c, s, n)` succeeds, which it does as soon as the
allocator can provide an object, the object is a gap whose getters `number`,
`reason_code` and `reason_string` read back `n`, `c` and `s`. -/
theorem gap_getters_read_back {G : Type} (c : Int) (s : String) (n : Int)
    (closure : Closure) (w : World G) :
    (w.heap ≠ 0 → ∃ w1, recpy_gap_new c s n w = (some (PyObject.RecordGap ⟨c, s, n⟩), w1))
    ∧ ∀ obj w1, recpy_gap_new c s n w = (some obj, w1) →
        ∃ gap, obj = PyObject.RecordGap gap
          ∧ recpy_gap_number gap closure = PyObject.PyInt n
          ∧ recpy_gap_reason_code gap closure = PyObject.PyInt c
          ∧ recpy_gap_reason_string gap closure = PyObject.PyString s := by
  refine ⟨fun hheap => ?_, fun obj w1 hnew => ?_⟩
  · exact ⟨{ w with heap := w.heap - 1 }, by simp [recpy_gap_new, PyObject_New, hheap]⟩
  · by_cases hheap : w.heap = 0
    · simp [recpy_gap_new, PyObject_New, hheap] at hnew
    · simp only [recpy_gap_new, PyObject_New, hheap, if_false, Prod.mk.injEq,
        Option.some.injEq] at hnew
      exact ⟨⟨c, s, n⟩, hnew.1.symm, rfl, rfl, rfl⟩

/-- C3 at the spec's example: code 3, string "overflow", index 42. -/
theorem gap_getters_read_back_witness :
    recpy_gap_new 3 "overflow" 42 SpecModel.world0 =
        (some (PyObject.RecordGap ⟨3, "overflow", 42⟩), { SpecModel.world0 with heap := 3 })
    ∧ ∃ gap, PyObject.RecordGap ⟨3, "overflow", 42⟩ = PyObject.RecordGap gap
        ∧ recpy_gap_number gap 0 = PyObject.PyInt 42
        ∧ recpy_gap_reason_code gap 0 = PyObject.PyInt 3
        ∧ recpy_gap_reason_string gap 0 = PyObject.PyString "overflow" :=
  ⟨by decide,
    (gap_getters_read_back 3 "overflow" 42 0 SpecModel.world0).2
      (PyObject.RecordGap ⟨3, "overflow", 42⟩) { SpecModel.world0 with heap := 3 }
      (by decide)⟩

/-! ## The module functions -/

/-- C4: with a record target present and the allocator exhausted,
`gdbpy_current_recording` writes `ret->ptid` through the `NULL` that `PyObject_New`
returned, where `recpy_gap_new` in the same state tests the pointer and returns
`NULL` with `MemoryError` set. -/
theorem current_recording_unchecked_allocation :
    gdbpy_current_recording SpecModel.externals []
        { gdb := SpecModel.tracing, err := none, heap := 0 } = Outcome.null_dereference
    ∧ recpy_gap_new 3 "overflow" 42
        ({ gdb := SpecModel.tracing, err := none, heap := 0 } : World SpecModel.Registry) =
      (none, { gdb := SpecModel.tracing, err := some ⟨PyExc.PyExc_MemoryError, ""⟩,
               heap := 0 }) := by
  constructor <;> rfl

/-- C5: `gdbpy_start_recording` returns a session only through a successful
`record_start`.  (1) If `record_start` throws, the call returns `NULL` with the
converted exception set.  (2) If it succeeds, the call is `gdbpy_current_recording`
in the state `record_start` left.  (3) Whenever a session comes back, the arguments
parsed and `record_start` succeeded.  (4) In the modelled registry, a call that
follows a successful one with no stop in between returns `NULL`, with
`AlreadyRecording` when its arguments parse. -/
theorem start_recording_follows_record_start {G : Type} (X : Externals G)
    (args : List PyObject) (w : World G) :
    (∀ method format w1 e w2, X.PyArg_ParseTuple_ss args w = (some (method, format), w1) →
        X.record_start method format 0 w1 = (Except.error e, w2) →
        gdbpy_start_recording X args w =
          Outcome.returned none (X.gdbpy_convert_exception e w2))
    ∧ (∀ method format w1 w2, X.PyArg_ParseTuple_ss args w = (some (method, format), w1) →
        X.record_start method format 0 w1 = (Except.ok (), w2) →
        gdbpy_start_recording X args w = gdbpy_current_recording X args w2)
    ∧ (∀ session w3,
        gdbpy_start_recording X args w =
          Outcome.returned (some (PyObject.Record session)) w3 →
        ∃ method format w1 w2,
          X.PyArg_ParseTuple_ss args w = (some (method, format), w1)
          ∧ X.record_start method format 0 w1 = (Except.ok (), w2)
          ∧ gdbpy_current_recording X args w2 =
              Outcome.returned (some (PyObject.Record session)) w3)
    ∧ (∀ (args1 args2 : List PyObject) (v v1 : World SpecModel.Registry) session,
        gdbpy_start_recording SpecModel.externals args1 v =
          Outcome.returned (some (PyObject.Record session)) v1 →
        (∃ v2, gdbpy_start_recording SpecModel.externals args2 v1 =
          Outcome.returned none v2)
        ∧ (∀ method format,
            SpecModel.PyArg_ParseTuple_ss args2 v1 = (some (method, format), v1) →
            gdbpy_start_recording SpecModel.externals args2 v1 =
              Outcome.returned none
                { v1 with err := some ⟨PyExc.gdb_error SpecError.AlreadyRecording,
                                        "already recording"⟩ })) := by
  refine ⟨?_, ?_, ?_, ?_⟩
  · intro method format w1 e w2 hparse hstart
    simp [gdbpy_start_recording, hparse, hstart]
  · intro method format w1 w2 hparse hstart
    simp [gdbpy_start_recording, hparse, hstart]
  · intro session w3 h
    unfold gdbpy_start_recording at h
    rcases hparse : X.PyArg_ParseTuple_ss args w with ⟨_ | ⟨method, format⟩, w1⟩
    · simp [hparse] at h
    · rcases hstart : X.record_start method format 0 w1 with ⟨e | u, w2⟩
      · simp [hparse, hstart] at h
      · simp only [hparse, hstart] at h
        exact ⟨method, format, w1, w2, rfl, hstart, h⟩
  · intro args1 args2 v v1 session hfirst
    have hactive : SpecModel.find_record_target v1.gdb = true := by
      unfold gdbpy_start_recording at hfirst
      rcases hparse : SpecModel.externals.PyArg_ParseTuple_ss args1 v with
        ⟨_ | ⟨method, format⟩, w1⟩
      · simp [hparse] at hfirst
      · rcases hstart : SpecModel.externals.record_start method format 0 w1 with
          ⟨e | u, w2⟩
        · simp [hparse, hstart] at hfirst
        · simp only [hparse, hstart] at hfirst
          obtain ⟨htarget, hgdb, -⟩ :=
            gdbpy_current_recording_record SpecModel.externals args1 w2 v1 session hfirst
          rw [hgdb]
          exact htarget
    have hsecond : ∀ method format,
        SpecModel.PyArg_ParseTuple_ss args2 v1 = (some (method, format), v1) →
        gdbpy_start_recording SpecModel.externals args2 v1 =
          Outcome.returned none
            { v1 with err := some ⟨PyExc.gdb_error SpecError.AlreadyRecording,
                                    "already recording"⟩ } := by
      intro method format hparse
      have hparse2 : SpecModel.externals.PyArg_ParseTuple_ss args2 v1 =
          (some (method, format), v1) := hparse
      have hstart : SpecModel.externals.record_start method format 0 v1 =
          (Except.error ⟨SpecError.AlreadyRecording, "already recording"⟩, v1) :=
        SpecModel.record_start_active method format v1 hactive
      simp only [gdbpy_start_recording, hparse2, hstart]
      rfl
    refine ⟨?_, hsecond⟩
    rcases SpecModel.PyArg_ParseTuple_ss_cases args2 v1 with ⟨⟨method, format⟩, hparse⟩ | ⟨w1, hparse⟩
    · exact ⟨_, hsecond method format hparse⟩
    · have hparse2 : SpecModel.externals.PyArg_ParseTuple_ss args2 v1 = (none, w1) := hparse
      exact ⟨w1, by simp only [gdbpy_start_recording, hparse2]⟩

/-- C5 on the modelled registry: once `gdb.start_recording ("btrace")` has returned
a session, a second `gdb.start_recording ("btrace")` fails with `AlreadyRecording`. -/
theorem start_recording_follows_record_start_witness :
    gdbpy_start_recording SpecModel.externals [PyObject.PyString "btrace"]
        SpecModel.btrace_started =
      Outcome.returned none
        { SpecModel.btrace_started with
          err := some ⟨PyExc.gdb_error SpecError.AlreadyRecording, "already recording"⟩ } :=
  ((start_recording_follows_record_start SpecModel.externals [] SpecModel.world0).2.2.2
      [PyObject.PyString "btrace"] [PyObject.PyString "btrace"] SpecModel.world0
      SpecModel.btrace_started ⟨SpecModel.thread1, record_method.RECORD_METHOD_BTRACE⟩
      (by decide)).2 (some "btrace") none (by decide)

/-- C6: `gdbpy_stop_recording` fails exactly when `record_stop` throws.  (1) If
`record_stop` throws, the call returns `NULL` with the converted exception set.
(2) If it succeeds, the call returns `None` in the state `record_stop` left.
(3) The call returns `NULL` if and only if `record_stop` threw.  (4) In the
modelled registry, with no session active the call fails with `NotRecording`. -/
theorem stop_recording_follows_record_stop {G : Type} (X : Externals G)
    (args : List PyObject) (w : World G) :
    (∀ e w1, X.record_stop 0 w = (Except.error e, w1) →
        gdbpy_stop_recording X args w = (none, X.gdbpy_convert_exception e w1))
    ∧ (∀ w1, X.record_stop 0 w = (Except.ok (), w1) →
        gdbpy_stop_recording X args w = (some PyObject.Py_None, w1))
    ∧ ((gdbpy_stop_recording X args w).1 = none ↔
        ∃ e w1, X.record_stop 0 w = (Except.error e, w1))
    ∧ (∀ v : World SpecModel.Registry, SpecModel.find_record_target v.gdb = false →
        gdbpy_stop_recording SpecModel.externals args v =
          (none, { v with err := some ⟨PyExc.gdb_error SpecError.NotRecording,
                                        "not recording"⟩ })) := by
  refine ⟨?_, ?_, ?_, ?_⟩
  · intro e w1 hstop
    simp [gdbpy_stop_recording, hstop]
  · intro w1 hstop
    simp [gdbpy_stop_recording, hstop]
  · unfold gdbpy_stop_recording
    rcases hstop : X.record_stop 0 w with ⟨e | u, w1⟩
    · simp
    · simp
  · intro v hidle
    have hstop : SpecModel.externals.record_stop 0 v =
        (Except.error ⟨SpecError.NotRecording, "not recording"⟩, v) :=
      SpecModel.record_stop_idle v hidle
    simp only [gdbpy_stop_recording, hstop]
    rfl

/-- C6 on the modelled registry: with nothing recording, `gdb.stop_recording ()`
fails with `NotRecording`. -/
theorem stop_recording_follows_record_stop_witness :
    gdbpy_stop_recording SpecModel.externals [] SpecModel.world0 =
      (none, { SpecModel.world0 with
               err := some ⟨PyExc.gdb_error SpecError.NotRecording, "not recording"⟩ }) :=
  (stop_recording_follows_record_stop SpecModel.externals [] SpecModel.world0).2.2.2
    SpecModel.world0 (by decide)

/-! ## Unsupported operations -/

/-- C7 refuted: `goto` on a `RECORD_METHOD_FULL` session and `begin` on a
`RECORD_METHOD_NONE` session, two different operations on two different methods,
neither declared, produce the very same result and error indicator; the error
names neither the operation nor the method. -/
theorem unsupported_error_does_not_name_operation :
    RecordMember.goto ≠ RecordMember.begin
    ∧ record_method.RECORD_METHOD_FULL ≠ record_method.RECORD_METHOD_NONE
    ∧ declares record_method.RECORD_METHOD_FULL RecordMember.goto = false
    ∧ declares record_method.RECORD_METHOD_NONE RecordMember.begin = false
    ∧ recpy_record_member SpecModel.backends RecordMember.goto
          ⟨SpecModel.thread1, record_method.RECORD_METHOD_FULL⟩ [] 0 SpecModel.world0 =
        recpy_record_member SpecModel.backends RecordMember.begin
          ⟨SpecModel.thread1, record_method.RECORD_METHOD_NONE⟩ [] 0 SpecModel.world0
    ∧ (recpy_record_member SpecModel.backends RecordMember.goto
          ⟨SpecModel.thread1, record_method.RECORD_METHOD_FULL⟩ [] 0 SpecModel.world0).2.err =
        some ⟨PyExc.PyExc_NotImplementedError, "Not implemented."⟩ := by
  decide

/-- C7 as amended: whenever the session's method does not declare the operation,
the facade returns `NULL` with `NotImplementedError` and the fixed message
"Not implemented.", the same for every operation and method, and leaves the rest
of the state untouched. -/
theorem undeclared_member_fixed_error {G : Type} (B : Backends G) (m : RecordMember)
    (self : recpy_record_object) (value : List PyObject) (closure : Closure)
    (w : World G) (hundeclared : declares self.method m = false) :
    recpy_record_member B m self value closure w =
      (none, { w with err := some ⟨PyExc.PyExc_NotImplementedError, "Not implemented."⟩ }) :=
  recpy_record_member_undeclared B m self value closure w hundeclared

/-- C7 as amended, at `end` on a `RECORD_METHOD_FULL` session. -/
theorem undeclared_member_fixed_error_witness :
    recpy_record_member SpecModel.backends RecordMember.end_
        ⟨SpecModel.thread1, record_method.RECORD_METHOD_FULL⟩ [] 0 SpecModel.full_started =
      (none, { SpecModel.full_started with
               err := some ⟨PyExc.PyExc_NotImplementedError, "Not implemented."⟩ }) :=
  undeclared_member_fixed_error SpecModel.backends RecordMember.end_
    ⟨SpecModel.thread1, record_method.RECORD_METHOD_FULL⟩ [] 0 SpecModel.full_started
    (by decide)

/-- C10: on a session whose stored method is neither `RECORD_METHOD_FULL` nor
`RECORD_METHOD_BTRACE`, all eight members (`method` and `format` included) return
`NULL` with the same `NotImplementedError`, whatever the backends are; and
`gdbpy_current_recording` stores in the session whatever method the target reports
for the selected thread, `RECORD_METHOD_NONE` included. -/
theorem other_method_all_members_not_implemented {G : Type} (B : Backends G)
    (self : recpy_record_object) (value : List PyObject) (closure : Closure)
    (w : World G) (hfull : self.method ≠ record_method.RECORD_METHOD_FULL)
    (hbtrace : self.method ≠ record_method.RECORD_METHOD_BTRACE) :
    (recpy_method B self closure w =
        (none, { w with err := some ⟨PyExc.PyExc_NotImplementedError, "Not implemented."⟩ })
    ∧ recpy_format B self closure w =
        (none, { w with err := some ⟨PyExc.PyExc_NotImplementedError, "Not implemented."⟩ })
    ∧ recpy_goto B self value w =
        (none, { w with err := some ⟨PyExc.PyExc_NotImplementedError, "Not implemented."⟩ })
    ∧ recpy_replay_position B self closure w =
        (none, { w with err := some ⟨PyExc.PyExc_NotImplementedError, "Not implemented."⟩ })
    ∧ recpy_instruction_history B self closure w =
        (none, { w with err := some ⟨PyExc.PyExc_NotImplementedError, "Not implemented."⟩ })
    ∧ recpy_function_call_history B self closure w =
        (none, { w with err := some ⟨PyExc.PyExc_NotImplementedError, "Not implemented."⟩ })
    ∧ recpy_begin B self closure w =
        (none, { w with err := some ⟨PyExc.PyExc_NotImplementedError, "Not implemented."⟩ })
    ∧ recpy_end B self closure w =
        (none, { w with err := some ⟨PyExc.PyExc_NotImplementedError, "Not implemented."⟩ }))
    ∧ ∀ (X : Externals G) (args : List PyObject) (v : World G),
        X.find_record_target v.gdb = true → v.heap ≠ 0 →
        X.target_record_method (X.inferior_ptid v.gdb) v.gdb =
          record_method.RECORD_METHOD_NONE →
        gdbpy_current_recording X args v =
          Outcome.returned
            (some (PyObject.Record ⟨X.inferior_ptid v.gdb, record_method.RECORD_METHOD_NONE⟩))
            { v with heap := v.heap - 1 } := by
  refine ⟨?_, ?_⟩
  · simp [recpy_method, recpy_format, recpy_goto, recpy_replay_position,
      recpy_instruction_history, recpy_function_call_history, recpy_begin, recpy_end,
      PyErr_Format, hfull, hbtrace]
  · intro X args v htarget hheap hnone
    rw [gdbpy_current_recording_allocated X args v htarget hheap, hnone]

/-- C10 at a session of thread 1 whose stored method is `RECORD_METHOD_NONE`:
`method` fails with `NotImplementedError`. -/
theorem other_method_all_members_not_implemented_witness :
    recpy_method SpecModel.backends
        ⟨SpecModel.thread1, record_method.RECORD_METHOD_NONE⟩ 0 SpecModel.replaying =
      (none, { SpecModel.replaying with
               err := some ⟨PyExc.PyExc_NotImplementedError, "Not implemented."⟩ }) :=
  (other_method_all_members_not_implemented SpecModel.backends
    ⟨SpecModel.thread1, record_method.RECORD_METHOD_NONE⟩ [] 0 SpecModel.replaying
    (by decide) (by decide)).1.1

/-! ## Replay cursor -/

/-- C8: on a `RECORD_METHOD_BTRACE` session with a live recording, `goto (p)` with
`p < begin` or `p > end` returns `NULL` with `OutOfRange` set, changes nothing else,
and `replay_position` afterwards is the position it was before. -/
theorem goto_outside_bounds_out_of_range (w : World SpecModel.Registry)
    (self : recpy_record_object) (sess : SpecModel.Recording) (p : Int) (closure : Closure)
    (hmethod : self.method = record_method.RECORD_METHOD_BTRACE)
    (hlive : w.gdb.recording self.ptid = some sess)
    (hout : p < sess.begin_pos ∨ sess.end_pos < p) :
    recpy_goto SpecModel.backends self [PyObject.Position p] w =
        (none, { w with err := some ⟨PyExc.gdb_error SpecError.OutOfRange, "out of range"⟩ })
    ∧ fails_with SpecError.OutOfRange
        (recpy_goto SpecModel.backends self [PyObject.Position p] w)
    ∧ (recpy_replay_position SpecModel.backends self closure
          (recpy_goto SpecModel.backends self [PyObject.Position p] w).2).1 =
        some (PyObject.Position sess.position)
    ∧ (recpy_replay_position SpecModel.backends self closure w).1 =
        some (PyObject.Position sess.position) := by
  have hnot : ¬ (sess.begin_pos ≤ p ∧ p ≤ sess.end_pos) := by omega
  have hgoto : recpy_goto SpecModel.backends self [PyObject.Position p] w =
      (none, { w with err := some ⟨PyExc.gdb_error SpecError.OutOfRange, "out of range"⟩ }) := by
    simp [recpy_goto, hmethod, SpecModel.backends, SpecModel.recpy_bt_goto, hlive, hnot,
      PyErr_Format]
  refine ⟨hgoto, ?_, ?_, ?_⟩
  · rw [hgoto]
    exact ⟨rfl, "out of range", rfl⟩
  · rw [hgoto]
    simp [recpy_replay_position, hmethod, SpecModel.backends, SpecModel.query, hlive]
  · simp [recpy_replay_position, hmethod, SpecModel.backends, SpecModel.query, hlive]

/-- C8 on the ten-instruction trace replaying at position 5: `goto (11)` fails with
`OutOfRange` and the replay position is still 5. -/
theorem goto_outside_bounds_out_of_range_witness :
    recpy_goto SpecModel.backends ⟨SpecModel.thread1, record_method.RECORD_METHOD_BTRACE⟩
        [PyObject.Position 11] SpecModel.replaying =
      (none, { SpecModel.replaying with
               err := some ⟨PyExc.gdb_error SpecError.OutOfRange, "out of range"⟩ })
    ∧ (recpy_replay_position SpecModel.backends
          ⟨SpecModel.thread1, record_method.RECORD_METHOD_BTRACE⟩ 0
          (recpy_goto SpecModel.backends
            ⟨SpecModel.thread1, record_method.RECORD_METHOD_BTRACE⟩
            [PyObject.Position 11] SpecModel.replaying).2).1 =
        some (PyObject.Position 5) :=
  have h := goto_outside_bounds_out_of_range SpecModel.replaying
    ⟨SpecModel.thread1, record_method.RECORD_METHOD_BTRACE⟩
    { method := record_method.RECORD_METHOD_BTRACE, format := "bts",
      begin_pos := 0, end_pos := 10, position := 5,
      instructions := [], function_calls := [] }
    11 0 rfl (by decide) (Or.inr (by decide))
  ⟨h.1, h.2.2.1⟩

/-! ## Stale session handles -/

/-- C9 refuted: `gdb.start_recording ("full")` returns a session, `gdb.stop_recording ()`
then succeeds, and `goto` on the handle obtained before the stop fails with
`NotImplementedError`, exactly as it did before the stop, not with
`InvalidSession`. -/
theorem stale_handle_goto_not_invalid_session :
    gdbpy_start_recording SpecModel.externals [PyObject.PyString "full"] SpecModel.world0 =
        Outcome.returned
          (some (PyObject.Record ⟨SpecModel.thread1, record_method.RECORD_METHOD_FULL⟩))
          SpecModel.full_started
    ∧ gdbpy_stop_recording SpecModel.externals [] SpecModel.full_started =
        (some PyObject.Py_None, SpecModel.full_stopped)
    ∧ gdbpy_current_recording SpecModel.externals [] SpecModel.full_stopped =
        Outcome.returned (some PyObject.Py_None) SpecModel.full_stopped
    ∧ recpy_goto SpecModel.backends ⟨SpecModel.thread1, record_method.RECORD_METHOD_FULL⟩
          [PyObject.Position 0] SpecModel.full_stopped =
        (none, { SpecModel.full_stopped with
                 err := some ⟨PyExc.PyExc_NotImplementedError, "Not implemented."⟩ })
    ∧ ¬ fails_with SpecError.InvalidSession
        (recpy_goto SpecModel.backends ⟨SpecModel.thread1, record_method.RECORD_METHOD_FULL⟩
          [PyObject.Position 0] SpecModel.full_stopped) := by
  refine ⟨by decide, by decide, by decide, by decide, ?_⟩
  rintro ⟨-, msg, hmsg⟩
  simp [recpy_goto, PyErr_Format] at hmsg

/-- C9 as amended: after `gdbpy_stop_recording` succeeded, a member of a handle that
`gdbpy_current_recording` returned before the stop is dispatched on the method tag
the handle stored when it was created, the target's method at that time, and the
facade checks nothing else.  (1)-(2) The tag is the method read at creation and the
stop is a successful `record_stop`.  (3) The result is the table's: the backend's
own for a declared pair.  (4) For an undeclared pair it is `NotImplementedError`,
as before the stop.  (5) With the modelled backends, a declared pair fails with
`InvalidSession`. -/
theorem stale_handle_dispatches_on_cached_method {G : Type} (B : Backends G)
    (X : Externals G) (args : List PyObject) (w w1 w2 : World G)
    (handle : recpy_record_object) (m : RecordMember) (value : List PyObject)
    (closure : Closure)
    (hcurrent : gdbpy_current_recording X args w =
      Outcome.returned (some (PyObject.Record handle)) w1)
    (hstop : gdbpy_stop_recording X args w1 = (some PyObject.Py_None, w2)) :
    handle.method = X.target_record_method (X.inferior_ptid w.gdb) w.gdb
    ∧ X.record_stop 0 w1 = (Except.ok (), w2)
    ∧ recpy_record_member B m handle value closure w2 =
        table_dispatch B m handle value closure w2
    ∧ (declares handle.method m = false →
        recpy_record_member B m handle value closure w2 =
          (none, { w2 with
                   err := some ⟨PyExc.PyExc_NotImplementedError, "Not implemented."⟩ }))
    ∧ (∀ (v v1 v2 : World SpecModel.Registry) (stale : recpy_record_object),
        gdbpy_current_recording SpecModel.externals args v =
          Outcome.returned (some (PyObject.Record stale)) v1 →
        gdbpy_stop_recording SpecModel.externals args v1 = (some PyObject.Py_None, v2) →
        declares stale.method m = true →
        fails_with SpecError.InvalidSession
          (recpy_record_member SpecModel.backends m stale value closure v2)) := by
  have hunder : ∀ {H : Type} (Y : Externals H) (u1 u2 : World H),
      gdbpy_stop_recording Y args u1 = (some PyObject.Py_None, u2) →
      Y.record_stop 0 u1 = (Except.ok (), u2) := by
    intro H Y u1 u2 hrun
    unfold gdbpy_stop_recording at hrun
    rcases hres : Y.record_stop 0 u1 with ⟨e | u, u3⟩
    · simp [hres] at hrun
    · simp only [hres, Prod.mk.injEq, true_and] at hrun
      rw [hrun]
  obtain ⟨-, -, hhandle⟩ := gdbpy_current_recording_record X args w w1 handle hcurrent
  refine ⟨by rw [hhandle], hunder X w1 w2 hstop,
    recpy_record_member_eq_table B m handle value closure w2,
    recpy_record_member_undeclared B m handle value closure w2, ?_⟩
  intro v v1 v2 stale hcur hstp hdeclared
  obtain ⟨-, hgdb, hstale⟩ :=
    gdbpy_current_recording_record SpecModel.externals args v v1 stale hcur
  have hgone : v2.gdb.recording v1.gdb.inferior_ptid = none :=
    SpecModel.record_stop_ok v1 v2 (hunder SpecModel.externals v1 v2 hstp)
  have hptid : stale.ptid = v1.gdb.inferior_ptid := by
    rw [hstale, hgdb]
    rfl
  exact SpecModel.backends_stale m stale value closure v2 (by rw [hptid]; exact hgone)
    hdeclared

/-- C9 as amended, on the modelled registry: the handle of a full recording, used for
`end` after the stop, still fails with `NotImplementedError`. -/
theorem stale_handle_dispatches_on_cached_method_witness :
    recpy_record_member SpecModel.backends RecordMember.end_
        ⟨SpecModel.thread1, record_method.RECORD_METHOD_FULL⟩ [] 0 SpecModel.full_stopped =
      (none, { SpecModel.full_stopped with
               err := some ⟨PyExc.PyExc_NotImplementedError, "Not implemented."⟩ }) :=
  (stale_handle_dispatches_on_cached_method SpecModel.backends SpecModel.externals []
    { SpecModel.full_started with heap := 4 } SpecModel.full_started SpecModel.full_stopped
    ⟨SpecModel.thread1, record_method.RECORD_METHOD_FULL⟩ RecordMember.end_ [] 0
    (by decide) (by decide)).2.2.2.1 (by decide)

end PyRecord
